import Mathlib

/-!
Verification of the PostNL Home Assistant integration
(`custom_components/postnl`): a shallow embedding in Lean 4 of the
shipment-reconciliation logic (`coordinator.py`), the sensor aggregation
(`sensor.py`) and the options-flow validator (`options_flow.py`),
together with theorems settling the specification claims.

Python/JSON values are embedded as `JValue`; Python exceptions as
`Except PyErr`; dictionary access (`d.get`, `d[k]`, `k in d`) and
truthiness are modelled by explicit functions below.  The remote APIs
(the GraphQL shipment list and the track-and-trace detail endpoint)
are parameters (oracles) of the embedded functions.
-/

namespace PostNL

/-- A Python value as it appears after JSON decoding: `None`, booleans,
integers, strings, lists and string-keyed dictionaries. -/
inductive JValue where
  | null
  | bool (b : Bool)
  | int (n : Int)
  | str (s : String)
  | arr (elems : List JValue)
  | obj (fields : List (String × JValue))

/-- The Python exceptions relevant to this integration:
`AttributeError`, `KeyError`, `TypeError`, `requests.exceptions.RequestException`
and Home Assistant's `UpdateFailed`. -/
inductive PyErr where
  | attributeError
  | keyError
  | typeError
  | requestException
  | updateFailed
deriving DecidableEq

/-- Python truthiness: `None`, `False`, `0`, `""` and empty containers
are falsy, everything else is truthy. -/
def truthy : JValue → Bool
  | .null => false
  | .bool b => b
  | .int n => n != 0
  | .str s => s != ""
  | .arr l => !l.isEmpty
  | .obj fs => !fs.isEmpty

/-- `isinstance(v, dict)`. -/
def isDict : JValue → Bool
  | .obj _ => true
  | _ => false

/-- Python `d.get(key, default)` with a string key: returns the stored
value when the key is present (even when that value is `None`), the
default otherwise; raises `AttributeError` when the receiver is not a
dictionary (this is how `None.get(...)` fails). -/
def pyGet (v : JValue) (key : String) (default : JValue) : Except PyErr JValue :=
  match v with
  | .obj fs => .ok ((fs.lookup key).getD default)
  | _ => .error .attributeError

/-- Python `d.get(key)` (default `None`). -/
def pyGetD (v : JValue) (key : String) : Except PyErr JValue :=
  pyGet v key .null

/-- Python `d.get(key, default)` where the key is itself a runtime value
(used for `colli.get(shipment['barcode'], None)`): JSON objects have
string keys, so a non-string hashable key simply misses and yields the
default, while unhashable keys (lists, dicts) raise `TypeError`. -/
def pyGetKey (v : JValue) (key : JValue) (default : JValue) : Except PyErr JValue :=
  match v with
  | .obj fs =>
    match key with
    | .str s => .ok ((fs.lookup s).getD default)
    | .arr _ => .error .typeError
    | .obj _ => .error .typeError
    | _ => .ok default
  | _ => .error .attributeError

/-- Python subscript `d[key]` with a string key: `KeyError` when a
dictionary misses the key, `TypeError` on non-dictionary receivers. -/
def pySubscript (v : JValue) (key : String) : Except PyErr JValue :=
  match v with
  | .obj fs =>
    match fs.lookup key with
    | some x => .ok x
    | none => .error .keyError
  | _ => .error .typeError

/-- Substring test used by Python's `key in s` on strings; the needle
here is always the non-empty literal `"colli"`, for which `splitOn`
produces more than one piece exactly when the needle occurs. -/
def strContainsSub (hay needle : String) : Bool :=
  (hay.splitOn needle).length > 1

/-- Python `key in v` for a string literal key: key membership on
dictionaries, element equality on lists, substring on strings,
`TypeError` otherwise. -/
def pyContains (v : JValue) (key : String) : Except PyErr Bool :=
  match v with
  | .obj fs => .ok ((fs.lookup key).isSome)
  | .arr l => .ok (l.any fun e => match e with | .str s => s == key | _ => false)
  | .str s => .ok (strContainsSub s key)
  | _ => .error .typeError

/-- Python iteration over a value (list comprehension source): lists
yield their elements, dictionaries their keys, strings their characters;
other values raise `TypeError`. -/
def pyIter : JValue → Except PyErr (List JValue)
  | .arr l => .ok l
  | .obj fs => .ok (fs.map fun kv => JValue.str kv.1)
  | .str s => .ok (s.toList.map fun c => JValue.str c.toString)
  | _ => .error .typeError

/-- Modelled from the spec: `structs/package.py` (the `Package` record)
is not under `src/`; spec section 3 describes it as a flat record with
identifier, display name, detail URL, shipment type, status message,
delivered flag, delivery timestamp, delivery-address type and optional
planned/expected delivery fields, the optional fields absent (`None`)
unless supplied by the constructor. -/
structure Package where
  key : JValue
  name : JValue
  url : JValue
  shipment_type : JValue
  status_message : JValue
  delivered : JValue
  delivery_date : JValue
  delivery_address_type : JValue
  planned_date : JValue := .null
  planned_from : JValue := .null
  planned_to : JValue := .null
  expected_datetime : JValue := .null

/-- A track-and-trace detail lookup: maps the shipment key passed to
`self.jouw_api.track_and_trace` to the decoded response, or to a
`requestException` on network failure. -/
def Tnt : Type := JValue → Except PyErr JValue

/-- `coordinator.py` lines 87-92: derive `colli` from the raw
track-and-trace response — `None` when the response is falsy or lacks
the `'colli'` key, otherwise `track_and_trace_details['colli'].get(shipment['barcode'], None)`. -/
def colliOf (sh td : JValue) : Except PyErr JValue := do
  if !truthy td then
    return .null
  else
    let hasColli ← pyContains td "colli"
    if !hasColli then
      return .null
    else
      let colliDict ← pySubscript td "colli"
      let barcode ← pySubscript sh "barcode"
      pyGetKey colliDict barcode .null

/-- `coordinator.py` lines 96-107 and 113-116: the four planned/expected
locals. With truthy `colli`, truthy `routeInformation` yields the route
fields (window sub-fields via `.get("plannedDeliveryTimeWindow", {})`),
otherwise and in the no-colli branch the shipment's own
`deliveryWindowFrom`/`deliveryWindowTo` with expected `None`. -/
def plannedFields (sh colli : JValue) : Except PyErr (JValue × JValue × JValue × JValue) := do
  if truthy colli then
    let route_information ← pyGetD colli "routeInformation"
    if truthy route_information then
      let planned_date ← pyGetD route_information "plannedDeliveryTime"
      let window1 ← pyGet route_information "plannedDeliveryTimeWindow" (.obj [])
      let planned_from ← pyGetD window1 "startDateTime"
      let window2 ← pyGet route_information "plannedDeliveryTimeWindow" (.obj [])
      let planned_to ← pyGetD window2 "endDateTime"
      let expected_datetime ← pyGetD route_information "expectedDeliveryTime"
      return (planned_date, planned_from, planned_to, expected_datetime)
    else
      let planned_date ← pyGetD sh "deliveryWindowFrom"
      let planned_from ← pyGetD sh "deliveryWindowFrom"
      let planned_to ← pyGetD sh "deliveryWindowTo"
      return (planned_date, planned_from, planned_to, .null)
  else
    let planned_date ← pyGetD sh "deliveryWindowFrom"
    let planned_from ← pyGetD sh "deliveryWindowFrom"
    let planned_to ← pyGetD sh "deliveryWindowTo"
    return (planned_date, planned_from, planned_to, .null)

/-- `coordinator.py` line 110: the local
`status_phase.get('message', "Unknown") if isinstance(status_phase, dict) else "Unknown"`,
computed in the truthy-colli branch (and fixed to `"Unknown"` on line 117
in the other branch).  This local is never used by the `Package`
constructor, which re-derives the message on line 124. -/
def statusMessageLocal (status_phase : JValue) : Except PyErr JValue :=
  if isDict status_phase then pyGet status_phase "message" (.str "Unknown")
  else .ok (.str "Unknown")

/-- `coordinator.py` line 124: the status message actually stored in the
`Package`: `colli.get('statusPhase', {}).get('message', "Unknown")` — with
no guard on `colli` or on the type of `statusPhase`. -/
def constructorStatusMessage (colli : JValue) : Except PyErr JValue := do
  let sp ← pyGet colli "statusPhase" (.obj [])
  pyGet sp "message" (.str "Unknown")

/-- `coordinator.py` lines 109-110 and 117: the `status_message` local —
derived from `colli.get('statusPhase', None)` through the guarded
expression of line 110 in the truthy-colli branch, fixed to `"Unknown"`
in the fallback branch. -/
def statusMessageLocalStep (colli : JValue) : Except PyErr JValue :=
  if truthy colli then do
    let status_phase ← pyGetD colli "statusPhase"
    statusMessageLocal status_phase
  else
    pure (JValue.str "Unknown")

/-- `coordinator.py` lines 66-132, body of `transform_shipment` (the
`try` block): the delivered short-circuit, the track-and-trace fetch,
the colli/route reconciliation and the `Package` construction.  `tnt`
is the `jouw_api.track_and_trace` call. -/
def transformBody (sh : JValue) (tnt : Tnt) : Except PyErr Package := do
  let delivered ← pyGetD sh "delivered"
  if truthy delivered then
    let key ← pyGetD sh "key"
    let name ← pyGetD sh "title"
    let url ← pyGetD sh "detailsUrl"
    let shipment_type ← pyGetD sh "shipmentType"
    let delivery_date ← pyGetD sh "deliveredTimeStamp"
    let delivery_address_type ← pyGetD sh "deliveryAddressType"
    return { key := key, name := name, url := url,
             shipment_type := shipment_type,
             status_message := .str "Pakket is bezorgd",
             delivered := delivered,
             delivery_date := delivery_date,
             delivery_address_type := delivery_address_type }
  else
    let key ← pySubscript sh "key"
    let track_and_trace_details ← tnt key
    let colli ← colliOf sh track_and_trace_details
    let fields ← plannedFields sh colli
    let _status_message_local ← statusMessageLocalStep colli
    let key2 ← pyGetD sh "key"
    let name ← pyGetD sh "title"
    let url ← pyGetD sh "detailsUrl"
    let shipment_type ← pyGetD sh "shipmentType"
    let status_message ← constructorStatusMessage colli
    let delivery_date ← pyGetD sh "deliveredTimeStamp"
    let delivery_address_type ← pyGetD sh "deliveryAddressType"
    return { key := key2, name := name, url := url,
             shipment_type := shipment_type,
             status_message := status_message,
             delivered := delivered,
             delivery_date := delivery_date,
             delivery_address_type := delivery_address_type,
             planned_date := fields.1,
             planned_from := fields.2.1,
             planned_to := fields.2.2.1,
             expected_datetime := fields.2.2.2 }

/-- `coordinator.py` lines 69 and 133-135: `transform_shipment` wraps its
body in `try ... except requests.exceptions.RequestException`, re-raising
`UpdateFailed`; every other exception propagates unchanged. -/
def transform_shipment (sh : JValue) (tnt : Tnt) : Except PyErr Package :=
  match transformBody sh tnt with
  | .error .requestException => .error .updateFailed
  | r => r

/-- The coordinator's published data (`data: dict[str, list[Package]]`):
the `'receiver'` and `'sender'` lists, replaced wholesale each cycle. -/
structure CoordData where
  receiver : List Package
  sender : List Package

/-- `coordinator.py` lines 50-52 and 55-57: transform every shipment of a
list; `asyncio.gather` joins all transforms and the first raised
exception aborts the combined result, so the sequence produces a list of
`Package` only when every single transform succeeded. -/
def transformAll (l : List JValue) (tnt : Tnt) : Except PyErr (List Package) :=
  match l with
  | [] => .ok []
  | s :: rest => do
    let p ← transform_shipment s tnt
    let ps ← transformAll rest tnt
    return p :: ps

/-- `coordinator.py` lines 50-51:
`shipments.get('trackedShipments', {}).get('receiverShipments', [])`
as an iterable of shipment records. -/
def receiverShipmentList (shipments : JValue) : Except PyErr (List JValue) := do
  let tracked ← pyGet shipments "trackedShipments" (.obj [])
  let rcv ← pyGet tracked "receiverShipments" (.arr [])
  pyIter rcv

/-- `coordinator.py` lines 55-56:
`shipments.get('trackedShipments', {}).get('senderShipments', [])`
as an iterable of shipment records. -/
def senderShipmentList (shipments : JValue) : Except PyErr (List JValue) := do
  let tracked ← pyGet shipments "trackedShipments" (.obj [])
  let snd ← pyGet tracked "senderShipments" (.arr [])
  pyIter snd

/-- `coordinator.py` lines 33-62, body of `_async_update_data` (the `try`
block): fetch the shipment list (`fetch` stands for the
`graphq_api.shipments` call, including its possible
`RequestException`), then transform the receiver list and the sender
list in order.  Token refresh and API-client construction are absorbed
into the two oracles. -/
def updateBody (fetch : Except PyErr JValue) (tnt : Tnt) : Except PyErr CoordData := do
  let shipments ← fetch
  let rl ← receiverShipmentList shipments
  let receiver ← transformAll rl tnt
  let sl ← senderShipmentList shipments
  let sender ← transformAll sl tnt
  return ⟨receiver, sender⟩

/-- `coordinator.py` lines 34 and 63-64: `_async_update_data` wraps its
body in `try ... except requests.exceptions.RequestException`, raising
`UpdateFailed`; any other exception propagates unchanged. -/
def async_update_data (fetch : Except PyErr JValue) (tnt : Tnt) : Except PyErr CoordData :=
  match updateBody fetch tnt with
  | .error .requestException => .error .updateFailed
  | r => r

/-- The mutable state of one `PostNLDelivery` sensor entity: the
`'delivered'` and `'enroute'` attribute lists and `_state`
(`None` until first populated). -/
structure SensorData where
  delivered : List Package
  enroute : List Package
  state : Option Nat

/-- `sensor.py` lines 113-128, `handle_coordinator_data`: reset both
attribute lists, pick the receiver or sender list from the coordinator
data, append each package to `'delivered'` or `'enroute'` by the
truthiness of its `delivered` field, and set the state to the length of
`'enroute'`. -/
def handle_coordinator_data (receiver : Bool) (coord : CoordData) (st : SensorData) : SensorData :=
  let cleared : SensorData := { st with delivered := [], enroute := [] }
  let coordinator_data := if receiver then coord.receiver else coord.sender
  let newDelivered := cleared.delivered ++ coordinator_data.filter (fun p => truthy p.delivered)
  let newEnroute := cleared.enroute ++ coordinator_data.filter (fun p => !truthy p.delivered)
  { delivered := newDelivered, enroute := newEnroute, state := some newEnroute.length }

/-- `options_flow.py` line 21, the validator
`vol.All(vol.Coerce(int), vol.Range(min=30))` applied to an integer
input: `Coerce(int)` is the identity on integers and `Range(min=30)`
raises `Invalid` for values below 30. -/
def validate_update_interval (v : Int) : Except Unit Int :=
  if v < 30 then .error () else .ok v

/-- `options_flow.py` line 18: the default shown for the
`update_interval` field is the stored option, or 90 when none is
stored. -/
def options_form_default (options : List (String × Int)) : Int :=
  (options.lookup "update_interval").getD 90

/-- `coordinator.py` line 29: the coordinator is constructed with
`update_interval=timedelta(seconds=90)`; its constructor receives only
`hass`, so no stored option reaches it. -/
def coordinator_update_interval_seconds : Nat := 90

/-- `v` is a Python boolean. -/
def JValue.isBool : JValue → Bool
  | .bool _ => true
  | _ => false

/-- The predicate "this package's delivered flag is the boolean
`False`". -/
def deliveredFalse (p : Package) : Bool :=
  match p.delivered with
  | .bool b => !b
  | _ => false

@[simp] theorem exc_ok_bind {α β : Type} (a : α) (f : α → Except PyErr β) :
    (Except.ok a >>= f) = f a := rfl

@[simp] theorem exc_error_bind {α β : Type} (e : PyErr) (f : α → Except PyErr β) :
    ((Except.error e : Except PyErr α) >>= f) = Except.error e := rfl

@[simp] theorem exc_pure_eq_ok {α : Type} (a : α) :
    (pure a : Except PyErr α) = Except.ok a := rfl

@[simp] theorem pyGetD_obj (fs : List (String × JValue)) (k : String) :
    pyGetD (.obj fs) k = .ok ((fs.lookup k).getD .null) := rfl

@[simp] theorem pyGet_obj (fs : List (String × JValue)) (k : String) (d : JValue) :
    pyGet (.obj fs) k d = .ok ((fs.lookup k).getD d) := rfl

theorem pyGetD_ok_obj {v : JValue} {k : String} {x : JValue}
    (h : pyGetD v k = .ok x) : ∃ fs, v = JValue.obj fs := by
  cases v <;> first
    | exact ⟨_, rfl⟩
    | simp [pyGetD, pyGet] at h

theorem pyGet_cases (v : JValue) (k : String) (d : JValue) :
    pyGet v k d = .error .attributeError ∨ ∃ x, pyGet v k d = .ok x := by
  cases v <;> simp [pyGet]

theorem statusMessageLocal_ok (sp : JValue) :
    ∃ m, statusMessageLocal sp = .ok m := by
  cases sp <;> simp [statusMessageLocal, isDict, pyGet]

theorem statusMessageLocalStep_ok (c : JValue)
    (hshape : c = .null ∨ ∃ cfs, c = JValue.obj cfs) :
    ∃ m, statusMessageLocalStep c = .ok m := by
  rcases hshape with rfl | ⟨cfs, rfl⟩
  · exact ⟨.str "Unknown", rfl⟩
  · unfold statusMessageLocalStep
    by_cases h : truthy (JValue.obj cfs) = true
    · simp only [h, if_true, pyGetD_obj, exc_ok_bind]
      exact statusMessageLocal_ok _
    · simp only [h, if_false]
      exact ⟨.str "Unknown", rfl⟩

theorem constructorStatusMessage_cases (c : JValue) :
    constructorStatusMessage c = .error .attributeError ∨
      ∃ m, constructorStatusMessage c = .ok m := by
  unfold constructorStatusMessage
  rcases pyGet_cases c "statusPhase" (.obj []) with h | ⟨sp, h⟩
  · rw [h]; left; rfl
  · rw [h, exc_ok_bind]
    exact pyGet_cases sp "message" (.str "Unknown")

/-- Structure of `transform_shipment` on a non-delivered shipment once
the track-and-trace fetch and the colli/planned-field reconciliation are
fixed: the result is the `Package` construction of lines 119-132, whose
only remaining effect is the unguarded status-message chain of
line 124. -/
theorem transform_nondelivered_eq
    (fs : List (String × JValue)) (tnt : Tnt) (k td c : JValue)
    (fields : JValue × JValue × JValue × JValue)
    (h2 : truthy ((fs.lookup "delivered").getD .null) = false)
    (hkey : pySubscript (.obj fs) "key" = .ok k)
    (htd : tnt k = .ok td)
    (hcolli : colliOf (.obj fs) td = .ok c)
    (hshape : c = .null ∨ ∃ cfs, c = JValue.obj cfs)
    (hpl : plannedFields (.obj fs) c = .ok fields) :
    transform_shipment (.obj fs) tnt =
      (constructorStatusMessage c >>= fun status_message =>
        .ok { key := (fs.lookup "key").getD .null,
              name := (fs.lookup "title").getD .null,
              url := (fs.lookup "detailsUrl").getD .null,
              shipment_type := (fs.lookup "shipmentType").getD .null,
              status_message := status_message,
              delivered := (fs.lookup "delivered").getD .null,
              delivery_date := (fs.lookup "deliveredTimeStamp").getD .null,
              delivery_address_type := (fs.lookup "deliveryAddressType").getD .null,
              planned_date := fields.1,
              planned_from := fields.2.1,
              planned_to := fields.2.2.1,
              expected_datetime := fields.2.2.2 }) := by
  obtain ⟨m, hm⟩ := statusMessageLocalStep_ok c hshape
  rcases constructorStatusMessage_cases c with hc | ⟨m2, hc⟩ <;>
    simp [transform_shipment, transformBody, h2, hkey, htd, hcolli, hpl, hm, hc]

end PostNL

namespace PostNL

/-- C2: a shipment record whose delivered flag is set is transformed,
independently of the track-and-trace oracle (the detail lookup is never
consulted), into a `Package` carrying the shipment's delivered flag, the
fixed status message `"Pakket is bezorgd"`, and absent (`None`)
planned/expected fields. -/
theorem c2_delivered_skips_lookup
    (sh : JValue) (tnt tnt' : Tnt) (dv : JValue)
    (h1 : pyGetD sh "delivered" = .ok dv) (h2 : truthy dv = true) :
    transform_shipment sh tnt = transform_shipment sh tnt' ∧
    ∃ pkg : Package, transform_shipment sh tnt = .ok pkg ∧
      pkg.delivered = dv ∧
      pkg.status_message = .str "Pakket is bezorgd" ∧
      pkg.planned_date = .null ∧ pkg.planned_from = .null ∧
      pkg.planned_to = .null ∧ pkg.expected_datetime = .null := by
  obtain ⟨fs, rfl⟩ := pyGetD_ok_obj h1
  have hdv : (fs.lookup "delivered").getD .null = dv := by
    simpa using h1
  refine ⟨?_, ?_⟩
  · simp [transform_shipment, transformBody, hdv, h2]
  · exact ⟨{ key := (fs.lookup "key").getD .null,
             name := (fs.lookup "title").getD .null,
             url := (fs.lookup "detailsUrl").getD .null,
             shipment_type := (fs.lookup "shipmentType").getD .null,
             status_message := .str "Pakket is bezorgd",
             delivered := dv,
             delivery_date := (fs.lookup "deliveredTimeStamp").getD .null,
             delivery_address_type := (fs.lookup "deliveryAddressType").getD .null },
           by simp [transform_shipment, transformBody, hdv, h2],
           rfl, rfl, rfl, rfl, rfl, rfl⟩

/-- Concrete delivered shipment used to instantiate `c2_delivered_skips_lookup`. -/
def shipmentC2 : JValue :=
  .obj [("key", .str "3SPOSTNL001"), ("title", .str "Boek"),
        ("delivered", .bool true), ("deliveredTimeStamp", .str "2024-05-01T12:00:00")]

/-- A detail oracle that would fail if it were consulted. -/
def tntFailingC2 : Tnt := fun _ => .error .requestException

/-- A detail oracle that would return data if it were consulted. -/
def tntRichC2 : Tnt := fun _ =>
  .ok (.obj [("colli", .obj [("3SPOSTNL001", .obj [("statusPhase", .obj [("message", .str "Onderweg")])])])])

theorem c2_delivered_skips_lookup_witness :
    transform_shipment shipmentC2 tntFailingC2 = transform_shipment shipmentC2 tntRichC2 ∧
    ∃ pkg : Package, transform_shipment shipmentC2 tntFailingC2 = .ok pkg ∧
      pkg.delivered = .bool true ∧
      pkg.status_message = .str "Pakket is bezorgd" ∧
      pkg.planned_date = .null ∧ pkg.planned_from = .null ∧
      pkg.planned_to = .null ∧ pkg.expected_datetime = .null :=
  c2_delivered_skips_lookup shipmentC2 tntFailingC2 tntRichC2 (.bool true) rfl rfl

/-- C4: for a non-delivered shipment whose matched colli carries truthy
route information, the `Package` that comes back (when one does) takes
its planned delivery time, planned window start and end, and expected
delivery time from the route information exactly
(`plannedDeliveryTime`, `plannedDeliveryTimeWindow.startDateTime`,
`plannedDeliveryTimeWindow.endDateTime`, `expectedDeliveryTime`). -/
theorem c4_route_information_fields
    (sh : JValue) (tnt : Tnt) (dv k td c r w pd pf pt ed : JValue)
    (hdel : pyGetD sh "delivered" = .ok dv) (hdv : truthy dv = false)
    (hkey : pySubscript sh "key" = .ok k)
    (htd : tnt k = .ok td)
    (hcolli : colliOf sh td = .ok c) (hcT : truthy c = true)
    (hroute : pyGetD c "routeInformation" = .ok r) (hrT : truthy r = true)
    (hpd : pyGetD r "plannedDeliveryTime" = .ok pd)
    (hw : pyGet r "plannedDeliveryTimeWindow" (.obj []) = .ok w)
    (hpf : pyGetD w "startDateTime" = .ok pf)
    (hpt : pyGetD w "endDateTime" = .ok pt)
    (hed : pyGetD r "expectedDeliveryTime" = .ok ed) :
    ∀ pkg : Package, transform_shipment sh tnt = .ok pkg →
      pkg.planned_date = pd ∧ pkg.planned_from = pf ∧
      pkg.planned_to = pt ∧ pkg.expected_datetime = ed := by
  obtain ⟨fs, rfl⟩ := pyGetD_ok_obj hdel
  obtain ⟨cfs, rfl⟩ := pyGetD_ok_obj hroute
  have hdv' : (fs.lookup "delivered").getD .null = dv := by simpa using hdel
  have h2 : truthy ((fs.lookup "delivered").getD .null) = false := by
    rw [hdv']; exact hdv
  have hpl : plannedFields (.obj fs) (.obj cfs) = .ok (pd, pf, pt, ed) := by
    simp [plannedFields, hcT, hroute, hrT, hpd, hw, hpf, hpt, hed]
  have heq := transform_nondelivered_eq fs tnt k td (.obj cfs) (pd, pf, pt, ed)
    h2 hkey htd hcolli (Or.inr ⟨cfs, rfl⟩) hpl
  intro pkg h
  rw [heq] at h
  rcases constructorStatusMessage_cases (.obj cfs) with hc | ⟨m2, hc⟩
  · rw [hc] at h
    simp at h
  · rw [hc, exc_ok_bind] at h
    injection h with h
    subst h
    exact ⟨rfl, rfl, rfl, rfl⟩

/-- Concrete non-delivered shipment used in the C4 and C5 witnesses. -/
def shipmentC4 : JValue :=
  .obj [("key", .str "3SROUTE04"), ("title", .str "Laptop"),
        ("barcode", .str "3SROUTE04"), ("delivered", .bool false),
        ("deliveryWindowFrom", .str "2024-05-02T09:00:00"),
        ("deliveryWindowTo", .str "2024-05-02T11:00:00")]

/-- Route information for the C4 witness. -/
def routeC4 : JValue :=
  .obj [("plannedDeliveryTime", .str "2024-05-02T10:04:00"),
        ("plannedDeliveryTimeWindow",
          .obj [("startDateTime", .str "2024-05-02T09:34:00"),
                ("endDateTime", .str "2024-05-02T10:34:00")]),
        ("expectedDeliveryTime", .str "2024-05-02T10:05:00")]

/-- Colli record for the C4 witness. -/
def colliC4 : JValue :=
  .obj [("statusPhase", .obj [("message", .str "Onderweg")]),
        ("routeInformation", routeC4)]

/-- Track-and-trace response for the C4 witness. -/
def responseC4 : JValue := .obj [("colli", .obj [("3SROUTE04", colliC4)])]

/-- The window sub-record of `routeC4`. -/
def windowC4 : JValue :=
  .obj [("startDateTime", .str "2024-05-02T09:34:00"),
        ("endDateTime", .str "2024-05-02T10:34:00")]

/-- Track-and-trace oracle for the C4 witness. -/
def tntC4 : Tnt := fun _ => .ok responseC4

/-- The `Package` produced for `shipmentC4` under `tntC4`. -/
def packageC4 : Package :=
  { key := .str "3SROUTE04", name := .str "Laptop", url := .null,
    shipment_type := .null, status_message := .str "Onderweg",
    delivered := .bool false, delivery_date := .null,
    delivery_address_type := .null,
    planned_date := .str "2024-05-02T10:04:00",
    planned_from := .str "2024-05-02T09:34:00",
    planned_to := .str "2024-05-02T10:34:00",
    expected_datetime := .str "2024-05-02T10:05:00" }

theorem c4_route_information_fields_witness :
    transform_shipment shipmentC4 tntC4 = .ok packageC4 ∧
    packageC4.planned_date = .str "2024-05-02T10:04:00" ∧
    packageC4.planned_from = .str "2024-05-02T09:34:00" ∧
    packageC4.planned_to = .str "2024-05-02T10:34:00" ∧
    packageC4.expected_datetime = .str "2024-05-02T10:05:00" :=
  ⟨rfl,
   c4_route_information_fields shipmentC4 tntC4 (.bool false) (.str "3SROUTE04")
     responseC4 colliC4 routeC4 windowC4
     (.str "2024-05-02T10:04:00") (.str "2024-05-02T09:34:00")
     (.str "2024-05-02T10:34:00") (.str "2024-05-02T10:05:00")
     rfl rfl rfl rfl rfl rfl rfl rfl rfl rfl rfl rfl rfl packageC4 rfl⟩

/-- C5: for a non-delivered shipment whose matched colli is present but
carries no (falsy or missing) route information, the `Package` that
comes back (when one does) takes its planned window start and end from
the shipment's own `deliveryWindowFrom`/`deliveryWindowTo`, with the
expected-delivery field absent. -/
theorem c5_no_route_fallback
    (sh : JValue) (tnt : Tnt) (dv k td c r wf wt : JValue)
    (hdel : pyGetD sh "delivered" = .ok dv) (hdv : truthy dv = false)
    (hkey : pySubscript sh "key" = .ok k)
    (htd : tnt k = .ok td)
    (hcolli : colliOf sh td = .ok c) (hcT : truthy c = true)
    (hroute : pyGetD c "routeInformation" = .ok r) (hrF : truthy r = false)
    (hwf : pyGetD sh "deliveryWindowFrom" = .ok wf)
    (hwt : pyGetD sh "deliveryWindowTo" = .ok wt) :
    ∀ pkg : Package, transform_shipment sh tnt = .ok pkg →
      pkg.planned_from = wf ∧ pkg.planned_to = wt ∧
      pkg.expected_datetime = .null := by
  obtain ⟨fs, rfl⟩ := pyGetD_ok_obj hdel
  obtain ⟨cfs, rfl⟩ := pyGetD_ok_obj hroute
  have hdv' : (fs.lookup "delivered").getD .null = dv := by simpa using hdel
  have h2 : truthy ((fs.lookup "delivered").getD .null) = false := by
    rw [hdv']; exact hdv
  have hpl : plannedFields (.obj fs) (.obj cfs) = .ok (wf, wf, wt, .null) := by
    simp [plannedFields, hcT, hroute, hrF, hwf, hwt]
  have heq := transform_nondelivered_eq fs tnt k td (.obj cfs) (wf, wf, wt, .null)
    h2 hkey htd hcolli (Or.inr ⟨cfs, rfl⟩) hpl
  intro pkg h
  rw [heq] at h
  rcases constructorStatusMessage_cases (.obj cfs) with hc | ⟨m2, hc⟩
  · rw [hc] at h
    simp at h
  · rw [hc, exc_ok_bind] at h
    injection h with h
    subst h
    exact ⟨rfl, rfl, rfl⟩

/-- Concrete non-delivered shipment used in the C5 witness. -/
def shipmentC5 : JValue :=
  .obj [("key", .str "3SNOROUTE5"), ("title", .str "Stoel"),
        ("barcode", .str "3SNOROUTE5"), ("delivered", .bool false),
        ("deliveryWindowFrom", .str "2024-06-10T13:00:00"),
        ("deliveryWindowTo", .str "2024-06-10T15:30:00")]

/-- Colli record without route information for the C5 witness. -/
def colliC5 : JValue :=
  .obj [("statusPhase", .obj [("message", .str "Gesorteerd")])]

/-- Track-and-trace response for the C5 witness. -/
def responseC5 : JValue := .obj [("colli", .obj [("3SNOROUTE5", colliC5)])]

/-- Track-and-trace oracle for the C5 witness. -/
def tntC5 : Tnt := fun _ => .ok responseC5

/-- The `Package` produced for `shipmentC5` under `tntC5`. -/
def packageC5 : Package :=
  { key := .str "3SNOROUTE5", name := .str "Stoel", url := .null,
    shipment_type := .null, status_message := .str "Gesorteerd",
    delivered := .bool false, delivery_date := .null,
    delivery_address_type := .null,
    planned_date := .str "2024-06-10T13:00:00",
    planned_from := .str "2024-06-10T13:00:00",
    planned_to := .str "2024-06-10T15:30:00",
    expected_datetime := .null }

theorem c5_no_route_fallback_witness :
    transform_shipment shipmentC5 tntC5 = .ok packageC5 ∧
    packageC5.planned_from = .str "2024-06-10T13:00:00" ∧
    packageC5.planned_to = .str "2024-06-10T15:30:00" ∧
    packageC5.expected_datetime = .null :=
  ⟨rfl,
   c5_no_route_fallback shipmentC5 tntC5 (.bool false) (.str "3SNOROUTE5")
     responseC5 colliC5 .null
     (.str "2024-06-10T13:00:00") (.str "2024-06-10T15:30:00")
     rfl rfl rfl rfl rfl rfl rfl rfl rfl rfl packageC5 rfl⟩

/-- Concrete non-delivered shipment for which the track-and-trace
response yields no colli match. -/
def shipmentC1 : JValue :=
  .obj [("key", .str "3SNOCOLLI1"), ("title", .str "Lamp"),
        ("barcode", .str "3SNOCOLLI1"), ("delivered", .bool false),
        ("deliveryWindowFrom", .str "2024-07-01T08:00:00"),
        ("deliveryWindowTo", .str "2024-07-01T10:00:00")]

/-- An oracle returning an empty (falsy) track-and-trace response, so
lines 87-90 set `colli = None`. -/
def tntEmptyC1 : Tnt := fun _ => .ok (.obj [])

/-- C1 (code bug evaluated): on a non-delivered shipment with no colli
match, `transform_shipment` does not return the `"Unknown"`-status
fallback `Package` of lines 111-117; the constructor argument of
line 124 evaluates `colli.get` with `colli = None` and the call raises
`AttributeError`, which no handler catches (only `RequestException`
is), so the cycle fails.  Lines 113-117 nonetheless computed the
fallback planned fields and the `"Unknown"` message, confirming the
intent the claim states. -/
theorem c1_no_colli_attribute_error :
    transform_shipment shipmentC1 tntEmptyC1 = .error .attributeError ∧
    colliOf shipmentC1 (.obj []) = .ok .null ∧
    plannedFields shipmentC1 .null =
      .ok (.str "2024-07-01T08:00:00", .str "2024-07-01T08:00:00",
           .str "2024-07-01T10:00:00", .null) ∧
    statusMessageLocalStep .null = .ok (.str "Unknown") ∧
    constructorStatusMessage .null = .error .attributeError :=
  ⟨rfl, rfl, rfl, rfl, rfl⟩

/-- Concrete non-delivered shipment whose colli carries a `statusPhase`
that is present but not a mapping (a bare string). -/
def shipmentC3 : JValue :=
  .obj [("key", .str "3SBADPHASE3"), ("title", .str "Vaas"),
        ("barcode", .str "3SBADPHASE3"), ("delivered", .bool false),
        ("deliveryWindowFrom", .str "2024-08-01T08:00:00"),
        ("deliveryWindowTo", .str "2024-08-01T10:00:00")]

/-- Colli whose `statusPhase` is the non-mapping string `"Afgeleverd"`. -/
def colliC3 : JValue :=
  .obj [("statusPhase", .str "Afgeleverd"),
        ("routeInformation", .obj [("plannedDeliveryTime", .str "2024-08-01T09:00:00")])]

/-- Track-and-trace oracle for the C3 failing input. -/
def tntC3 : Tnt := fun _ => .ok (.obj [("colli", .obj [("3SBADPHASE3", colliC3)])])

/-- C3 (code bug evaluated): when the matched colli's `statusPhase` is
present but not a mapping, the guarded expression of line 110 computes
`"Unknown"` exactly as the claim says, but that local is dead: the
`Package` constructor argument of line 124 re-derives the message
without the `isinstance` guard and raises `AttributeError`, so no
`Package` is returned at all.  (With `statusPhase` absent, line 124
does yield `"Unknown"`, and with a well-formed mapping it yields the
message, as the good-case conjuncts show on `colliC5` and
`packageC5`.) -/
theorem c3_status_phase_bug :
    transform_shipment shipmentC3 tntC3 = .error .attributeError ∧
    statusMessageLocalStep colliC3 = .ok (.str "Unknown") ∧
    constructorStatusMessage colliC3 = .error .attributeError ∧
    constructorStatusMessage (.obj []) = .ok (.str "Unknown") ∧
    constructorStatusMessage colliC5 = .ok (.str "Gesorteerd") :=
  ⟨rfl, rfl, rfl, rfl, rfl⟩

theorem countP_eq_of_mem (l : List Package) (p q : Package → Bool)
    (h : ∀ x ∈ l, p x = q x) : l.countP p = l.countP q := by
  induction l with
  | nil => rfl
  | cons a t ih =>
    have ha := h a (List.mem_cons_self a t)
    have ht : ∀ x ∈ t, p x = q x := fun x hx => h x (List.mem_cons_of_mem a hx)
    simp [List.countP_cons, ha, ih ht]

theorem not_truthy_eq_deliveredFalse (p : Package)
    (h : p.delivered.isBool = true) : (!truthy p.delivered) = deliveredFalse p := by
  rcases hb : p.delivered with _ | b | n | s | l | fs
  · simp [JValue.isBool, hb] at h
  · simp [deliveredFalse, truthy, hb]
  · simp [JValue.isBool, hb] at h
  · simp [JValue.isBool, hb] at h
  · simp [JValue.isBool, hb] at h
  · simp [JValue.isBool, hb] at h

/-- C6: after `handle_coordinator_data` processes a coordinator update,
the sensor's state equals the number of packages with `delivered=False`
in the receiver list (receiver sensor) or sender list (sender sensor),
stated here for coordinator data whose delivered flags are booleans. -/
theorem c6_state_counts_undelivered (r : Bool) (cd : CoordData) (st : SensorData)
    (h : ((if r then cd.receiver else cd.sender).all fun p => p.delivered.isBool) = true) :
    (handle_coordinator_data r cd st).state =
      some ((if r then cd.receiver else cd.sender).countP deliveredFalse) := by
  have hstate : (handle_coordinator_data r cd st).state =
      some (((if r then cd.receiver else cd.sender).filter fun p => !truthy p.delivered).length) := rfl
  rw [hstate]
  congr 1
  rw [← List.countP_eq_length_filter]
  apply countP_eq_of_mem
  intro p hp
  exact not_truthy_eq_deliveredFalse p (List.all_eq_true.mp h p hp)

/-- A delivered package for the C6 witness. -/
def packageDeliveredC6 : Package :=
  { key := .str "3SC6A", name := .str "Boek", url := .null,
    shipment_type := .null, status_message := .str "Pakket is bezorgd",
    delivered := .bool true, delivery_date := .str "2024-05-01T12:00:00",
    delivery_address_type := .null }

/-- An en-route package for the C6 witness. -/
def packageEnrouteC6 : Package :=
  { key := .str "3SC6B", name := .str "Lamp", url := .null,
    shipment_type := .null, status_message := .str "Onderweg",
    delivered := .bool false, delivery_date := .null,
    delivery_address_type := .null }

/-- Coordinator data for the C6 witness: receiver list with one
delivered and two en-route packages. -/
def coordDataC6 : CoordData :=
  ⟨[packageDeliveredC6, packageEnrouteC6, packageEnrouteC6], [packageDeliveredC6]⟩

/-- Freshly initialized sensor state (`_state = None`, empty lists). -/
def sensorInitC6 : SensorData := ⟨[], [], none⟩

theorem c6_state_counts_undelivered_witness :
    (handle_coordinator_data true coordDataC6 sensorInitC6).state =
      some ((if true then coordDataC6.receiver else coordDataC6.sender).countP deliveredFalse) ∧
    (if true then coordDataC6.receiver else coordDataC6.sender).countP deliveredFalse = 2 :=
  ⟨c6_state_counts_undelivered true coordDataC6 sensorInitC6 rfl, rfl⟩

/-- C10: `handle_coordinator_data` resets both attribute lists before
repopulating them, so its result is independent of the sensor state it
starts from and applying it twice to the same coordinator data is the
same as applying it once — packages never accumulate across refreshes. -/
theorem c10_handle_coordinator_data_idempotent :
    ∀ (r : Bool) (cd : CoordData) (st st' : SensorData),
      handle_coordinator_data r cd (handle_coordinator_data r cd st) =
        handle_coordinator_data r cd st ∧
      handle_coordinator_data r cd st = handle_coordinator_data r cd st' := by
  intro r cd st st'
  exact ⟨rfl, rfl⟩

theorem transformAll_ok_mem {tnt : Tnt} :
    ∀ (l : List JValue) (ps : List Package), transformAll l tnt = .ok ps →
      ∀ sh ∈ l, ∃ p, transform_shipment sh tnt = .ok p := by
  intro l
  induction l with
  | nil => intro ps _ sh hsh; cases hsh
  | cons a t ih =>
    intro ps h sh hsh
    simp only [transformAll] at h
    cases ha : transform_shipment a tnt with
    | error e => rw [ha] at h; simp at h
    | ok p =>
      rw [ha, exc_ok_bind] at h
      cases ht : transformAll t tnt with
      | error e => rw [ht] at h; simp at h
      | ok qs =>
        rcases List.mem_cons.mp hsh with rfl | hmem
        · exact ⟨p, ha⟩
        · exact ih qs ht sh hmem

/-- C7: a `RequestException` aborts the whole polling cycle.  First: a
failing shipment-list fetch makes `_async_update_data` raise
`UpdateFailed`.  Second: a failing track-and-trace fetch for a
non-delivered shipment makes that shipment's `transform_shipment`
raise `UpdateFailed` (which `asyncio.gather` propagates, failing the
cycle).  Third: the update returns data only when every shipment of the
receiver and sender lists transformed successfully — no partial data is
ever produced. -/
theorem c7_request_failure_aborts_cycle :
    ∀ (fetch : Except PyErr JValue) (tnt : Tnt),
      (fetch = .error .requestException →
        async_update_data fetch tnt = .error .updateFailed) ∧
      (∀ sh dv k, pyGetD sh "delivered" = .ok dv → truthy dv = false →
        pySubscript sh "key" = .ok k → tnt k = .error .requestException →
        transform_shipment sh tnt = .error .updateFailed) ∧
      (∀ shipments rl sl d, fetch = .ok shipments →
        receiverShipmentList shipments = .ok rl →
        senderShipmentList shipments = .ok sl →
        async_update_data fetch tnt = .ok d →
        transformAll rl tnt = .ok d.receiver ∧
        transformAll sl tnt = .ok d.sender ∧
        (∀ sh ∈ rl ++ sl, ∃ p, transform_shipment sh tnt = .ok p)) := by
  intro fetch tnt
  refine ⟨?_, ?_, ?_⟩
  · rintro rfl; rfl
  · intro sh dv k h1 h2 h3 h4
    obtain ⟨fs, rfl⟩ := pyGetD_ok_obj h1
    have hdv' : (fs.lookup "delivered").getD .null = dv := by simpa using h1
    simp [transform_shipment, transformBody, hdv', h2, h3, h4]
  · intro shipments rl sl d hf hr hs hok
    subst hf
    unfold async_update_data updateBody at hok
    rw [exc_ok_bind, hr, exc_ok_bind] at hok
    cases hta : transformAll rl tnt with
    | error e => rw [hta] at hok; cases e <;> simp at hok
    | ok rps =>
      rw [hta, exc_ok_bind, hs, exc_ok_bind] at hok
      cases htb : transformAll sl tnt with
      | error e => rw [htb] at hok; cases e <;> simp at hok
      | ok sps =>
        rw [htb, exc_ok_bind] at hok
        have hok' : Except.ok (ε := PyErr) (CoordData.mk rps sps) = .ok d := hok
        injection hok' with hok'
        subst hok'
        refine ⟨rfl, rfl, ?_⟩
        intro sh hsh
        rcases List.mem_append.mp hsh with hmem | hmem
        · exact transformAll_ok_mem rl rps hta sh hmem
        · exact transformAll_ok_mem sl sps htb sh hmem

/-- Non-delivered shipment for the C7 witness. -/
def shipmentC7 : JValue :=
  .obj [("key", .str "3SNETFAIL7"), ("barcode", .str "3SNETFAIL7"),
        ("delivered", .bool false)]

/-- A track-and-trace oracle that always fails with a network error. -/
def tntC7 : Tnt := fun _ => .error .requestException

theorem c7_request_failure_aborts_cycle_witness :
    async_update_data (.error .requestException) tntC7 = .error .updateFailed ∧
    transform_shipment shipmentC7 tntC7 = .error .updateFailed :=
  ⟨(c7_request_failure_aborts_cycle (.error .requestException) tntC7).1 rfl,
   (c7_request_failure_aborts_cycle (.error .requestException) tntC7).2.1
     shipmentC7 (.bool false) (.str "3SNETFAIL7") rfl rfl rfl rfl⟩

/-- C9: the options-flow validator for `update_interval` accepts an
integer value exactly when it is at least 30; anything below 30 raises
`Invalid` and so can never be stored. -/
theorem c9_update_interval_validator :
    ∀ n : Int, (∃ m, validate_update_interval n = .ok m) ↔ 30 ≤ n := by
  intro n
  unfold validate_update_interval
  split
  · rename_i h
    constructor
    · rintro ⟨m, hm⟩
      exact absurd hm (by simp)
    · intro h30
      exact absurd h30 (by omega)
  · rename_i h
    constructor
    · intro _
      omega
    · intro _
      exact ⟨n, rfl⟩

theorem c9_update_interval_validator_witness :
    (∃ m, validate_update_interval 30 = .ok m) ∧
    ¬ (∃ m, validate_update_interval 29 = .ok m) :=
  ⟨(c9_update_interval_validator 30).mpr (by decide),
   fun h => absurd ((c9_update_interval_validator 29).mp h) (by decide)⟩

/-- C8 counterexample: the options flow accepts and stores the interval
value 30, yet the interval the coordinator is constructed with is the
hardcoded 90, not 30 — so the interval actually used for refreshes does
not reflect the configured `update_interval` option. -/
theorem c8_counterexample_interval_ignored :
    validate_update_interval 30 = .ok 30 ∧
    coordinator_update_interval_seconds ≠ 30 := by
  constructor
  · rfl
  · decide

/-- C8 amended: the coordinator's polling interval is the hardcoded 90
seconds of `coordinator.py` line 29; the options flow separately offers
an `update_interval` option whose form default is the stored value or
90 and whose validator enforces a minimum of 30, but the coordinator's
constructor never receives that option. -/
theorem c8_interval_hardcoded_amended :
    coordinator_update_interval_seconds = 90 ∧
    (∀ opts : List (String × Int), opts.lookup "update_interval" = none →
      options_form_default opts = 90) ∧
    (∀ n : Int, (∃ m, validate_update_interval n = .ok m) ↔ 30 ≤ n) := by
  refine ⟨rfl, ?_, ?_⟩
  · intro opts h
    simp [options_form_default, h]
  · intro n
    unfold validate_update_interval
    split
    · rename_i h
      constructor
      · rintro ⟨m, hm⟩
        exact absurd hm (by simp)
      · intro h30
        exact absurd h30 (by omega)
    · rename_i h
      constructor
      · intro _
        omega
      · intro _
        exact ⟨n, rfl⟩

theorem c8_interval_hardcoded_amended_witness :
    coordinator_update_interval_seconds = 90 ∧
    options_form_default [] = 90 ∧
    (∃ m, validate_update_interval 90 = .ok m) :=
  ⟨c8_interval_hardcoded_amended.1,
   c8_interval_hardcoded_amended.2.1 [] rfl,
   (c8_interval_hardcoded_amended.2.2 90).mpr (by decide)⟩

end PostNL
